import Mathlib

/-!
Shallow embedding of the krkn resiliency-scoring code
(`krkn/prometheus/collector.py` and `krkn/resiliency/resiliency.py`)
and proofs of the spec's claims about it.

Numeric sample values are modelled as `Option ℚ`: `some q` stands for a
value on which Python's `float(val)` succeeds and returns `q`; `none`
stands for a value whose conversion raises `TypeError`/`ValueError`.
-/

/-- One Prometheus series as consumed by `slo_passed`.  A Python dict with a
`values` key (range shape: a list of `(timestamp, value)` pairs), with a
`value` key (instant shape: a single `(timestamp, value)` pair, of which the
code reads index 1), or with neither key (skipped by the loop). -/
inductive Series where
  | range (samples : List (ℚ × Option ℚ))
  | instant (ts : ℚ) (value : Option ℚ)
  | other
deriving DecidableEq

/-- One range sample trips the SLO when its value parses and is strictly
positive (`float(val) > 0` in `slo_passed`); an unparsable value is skipped. -/
def sample_positive (p : ℚ × Option ℚ) : Bool :=
  match p.2 with
  | some v => decide (0 < v)
  | none => false

/-- The series loop of `slo_passed` (collector.py lines 99-112).  A range
series with a positive sample returns `False` at once; an instant series
returns `float(value) == 0` at once (`False` when the parse fails); a series
with neither key is skipped; running off the end returns `True`. -/
def seriesScan : List Series → Bool
  | [] => true
  | Series.range samples :: rest =>
      if samples.any sample_positive then false else seriesScan rest
  | Series.instant _ v :: _ => decide (v = some 0)
  | Series.other :: rest => seriesScan rest

/-- `slo_passed` (collector.py lines 94-112): an empty result returns
`False` ("If query returns no data we cannot assert pass - treat as
failure"), otherwise the series are scanned in order. -/
def slo_passed (prometheus_result : List Series) : Bool :=
  match prometheus_result with
  | [] => false
  | result => seriesScan result

/-- The spec's three-way verdict for the Sample Verdict Extractor (§4.1). -/
inductive Verdict where
  | pass
  | fail
  | noData
deriving DecidableEq

/-- Modelled from the spec: the per-series definitive verdict of the Sample
Verdict Extractor of §4.1, written from the spec's words so that it can be
compared with the code's `slo_passed`.  A range series fails on a positive
sample, passes when it has samples but none positive, and is not definitive
when it has no samples; an instant series passes iff the value parses to 0;
a series of neither shape is not definitive. -/
def series_verdict_spec : Series → Option Verdict
  | Series.range samples =>
      if samples.any sample_positive then some Verdict.fail
      else if samples.isEmpty then none
      else some Verdict.pass
  | Series.instant _ (some v) =>
      if v = 0 then some Verdict.pass else some Verdict.fail
  | Series.instant _ none => some Verdict.fail
  | Series.other => none

/-- Modelled from the spec: the Sample Verdict Extractor contract of §4.1.
An input with no series at all yields `no_data`; otherwise series are
evaluated in order, returning on the first definitive verdict; when none is
definitive the result is `no_data`. -/
def extract_spec : List Series → Verdict
  | [] => Verdict.noData
  | s :: rest =>
      match series_verdict_spec s with
      | some v => v
      | none => extract_spec rest

/-- Outcome of one backend query as seen by the caller: a response (the list
of series) or a raised exception (any `Exception`, timeouts included). -/
inductive QueryOutcome where
  | ok (response : List Series)
  | error
deriving DecidableEq

/-- One normalised SLO definition (`_normalise_alerts` output shape). -/
structure SLODef where
  name : String
  expr : String
  severity : String
deriving DecidableEq

/-- The verdict `evaluate_slos` stores for one SLO: on a successful query,
`slo_passed(response)` (an empty response only draws a warning log and is
still scored through `slo_passed`, hence `False`); on a raised query
exception, `False`. -/
def slo_verdict (query : String → QueryOutcome) (slo : SLODef) : Bool :=
  match query slo.expr with
  | QueryOutcome.ok response => slo_passed response
  | QueryOutcome.error => false

/-- `evaluate_slos` (collector.py lines 115-152).  Python inserts
`results[name]` into a dict in iteration order; the map is modelled as the
ordered list of `(name, verdict)` pairs. -/
def evaluate_slos (query : String → QueryOutcome) (slo_list : List SLODef) :
    List (String × Bool) :=
  slo_list.map (fun slo => (slo.name, slo_verdict query slo))

/-- Pass/fail counts of the scored checks (`breakdown` dict). -/
structure ScoreBreakdown where
  passed : Int
  failed : Int
deriving DecidableEq

/-- Modelled from the spec: the built-in default severity weight table of
§4.3/§8 (`critical = 2`, every other severity `1`); the file
`krkn/resiliency/score.py` that holds it is not under `src/`. -/
def default_severity_weight (sev : String) : Int :=
  if sev = "critical" then 2 else 1

/-- Modelled from the spec: per-severity weight after applying the optional
override table (§4.3: "an explicit override table replaces defaults
per-severity"); `krkn/resiliency/score.py` is not under `src/`. -/
def severity_weight (weights : Option (List (String × Int))) (sev : String) : Int :=
  match weights with
  | some tbl =>
      match tbl.lookup sev with
      | some w => w
      | none => default_severity_weight sev
  | none => default_severity_weight sev

/-- Modelled from the spec: `calculate_resiliency_score` of
`krkn/resiliency/score.py`, which is not under `src/`.  Per §4.3: every SLO
verdict contributes a weight drawn from its severity, every health check
contributes weight 1, score is 100 times the weight of the passing checks
over the weight of all scored checks, rounded to an integer; the breakdown
holds the raw pass/fail counts; the degenerate zero-total case is fixed to
score 100 with breakdown 0/0 as §4.3 suggests. -/
def calculate_resiliency_score (slo_definitions : List (String × String))
    (prometheus_results : List (String × Bool))
    (health_check_results : List (String × Bool))
    (weights : Option (List (String × Int))) : Int × ScoreBreakdown :=
  let slo_checks := prometheus_results.map
    (fun p => (severity_weight weights ((slo_definitions.lookup p.1).getD "warning"), p.2))
  let hc_checks := health_check_results.map (fun p => ((1 : Int), p.2))
  let checks := slo_checks ++ hc_checks
  let total : Int := (checks.map Prod.fst).sum
  let passedW : Int := ((checks.filter Prod.snd).map Prod.fst).sum
  let passed : Int := ((checks.filter Prod.snd).length : Int)
  let failed : Int := (checks.length : Int) - passed
  if total = 0 then (100, ⟨0, 0⟩)
  else (round ((100 * passedW : ℚ) / (total : ℚ)), ⟨passed, failed⟩)

/-- One scenario report as appended by `add_scenario_report`
(resiliency.py lines 175-188); the window's two entries are the isoformat
strings. -/
structure ScenarioReport where
  name : String
  window : String × String
  score : Int
  weight : ℚ
  breakdown : ScoreBreakdown
  slo_results : List (String × Bool)
  health_check_results : List (String × Bool)
deriving DecidableEq

/-- The `summary` dict built by `finalize_report` (lines 225-231). -/
structure ResiliencySummary where
  scenarios : List (String × Int)
  resiliency_score : Int
  system_stability_score : Int
  passed_slos : Int
  total_slos : Int
deriving DecidableEq

/-- The `system_stability` section of the detailed report (lines 235-243). -/
structure StabilitySection where
  window : String × String
  score : Int
  breakdown : ScoreBreakdown
  slo_results : List (String × Bool)
deriving DecidableEq

/-- The `detailed_report` dict built by `finalize_report` (lines 233-244). -/
structure DetailedReport where
  scenarios : List ScenarioReport
  system_stability : StabilitySection
deriving DecidableEq

/-- The Python exceptions the resiliency module can raise. -/
inductive PyErr where
  | runtimeError (msg : String)
  | zeroDivisionError
  | valueError (msg : String)
  | fileNotFoundError (msg : String)
deriving DecidableEq

/-- The mutable attributes of a `Resiliency` object (resiliency.py lines
71-78).  `summary` and `detailed_report` are `Option (Option _)`: the outer
`Option` models whether the Python attribute exists at all (what
`hasattr(self, ...)` tests), the inner one models its value, `none` being
Python's `None`.  `__init__` sets both attributes to `None`, i.e. to
`some none`. -/
structure ResiliencyState where
  slos : List SLODef
  results : List (String × Bool)
  score : Option Int
  breakdown : Option ScoreBreakdown
  health_check_results : List (String × Bool)
  scenario_reports : List ScenarioReport
  summary : Option (Option ResiliencySummary)
  detailed_report : Option (Option DetailedReport)
deriving DecidableEq

/-- The state `Resiliency.__init__` leaves behind (lines 71-78), given the
normalised SLO list. -/
def initState (slos : List SLODef) : ResiliencyState :=
  { slos := slos, results := [], score := none, breakdown := none,
    health_check_results := [], scenario_reports := [],
    summary := some none, detailed_report := some none }

/-- Sum of the declared scenario weights (`total_weight`, line 204). -/
def total_weight (reps : List ScenarioReport) : ℚ :=
  (reps.map (fun r => r.weight)).sum

/-- Sum of `score * weight` over the scenario reports (line 206). -/
def weighted_score_sum (reps : List ScenarioReport) : ℚ :=
  (reps.map (fun r => (r.score : ℚ) * r.weight)).sum

/-- Python's `int()` on a real number: truncation toward zero. -/
def py_int (q : ℚ) : Int :=
  if 0 ≤ q then Rat.floor q else -Rat.floor (-q)

/-- The `slo_defs` dict of severity per name (lines 168, 217). -/
def slo_defs_map (slos : List SLODef) : List (String × String) :=
  slos.map (fun s => (s.name, s.severity))

/-- `finalize_report` (resiliency.py lines 191-244).  With no scenario
reports it raises `RuntimeError`; then Python evaluates
`sum(score*weight) / total_weight`, which raises `ZeroDivisionError` when
the weights sum to zero, before anything else happens — the explicit zero
test here models that raise; otherwise the weighted mean is truncated by
`int()`, a fresh full-window evaluation produces the stability score, and
the summary and detailed report attributes are assigned. -/
def finalize_report (query : String → QueryOutcome)
    (total_start total_end : String)
    (weights : Option (List (String × Int))) (st : ResiliencyState) :
    Except PyErr ResiliencyState :=
  if st.scenario_reports = [] then
    Except.error (PyErr.runtimeError "No scenario reports added - nothing to finalize")
  else if total_weight st.scenario_reports = 0 then
    Except.error PyErr.zeroDivisionError
  else
    let resiliency_score :=
      py_int (weighted_score_sum st.scenario_reports / total_weight st.scenario_reports)
    let full_slo_results := evaluate_slos query st.slos
    let sb := calculate_resiliency_score (slo_defs_map st.slos) full_slo_results [] weights
    Except.ok { st with
      summary := some (some {
        scenarios := st.scenario_reports.map (fun r => (r.name, r.score)),
        resiliency_score := resiliency_score,
        system_stability_score := sb.1,
        passed_slos := sb.2.passed,
        total_slos := sb.2.passed + sb.2.failed }),
      detailed_report := some (some {
        scenarios := st.scenario_reports,
        system_stability := {
          window := (total_start, total_end),
          score := sb.1,
          breakdown := sb.2,
          slo_results := full_slo_results } }) }

/-- `get_summary` (lines 246-250): raises only when the `summary` attribute
is absent (`hasattr` fails), otherwise returns the attribute's value. -/
def get_summary (st : ResiliencyState) :
    Except PyErr (Option ResiliencySummary) :=
  match st.summary with
  | none => Except.error (PyErr.runtimeError "finalize_report() must be called first")
  | some v => Except.ok v

/-- `get_detailed_report` (lines 252-256): same guard as `get_summary`. -/
def get_detailed_report (st : ResiliencyState) :
    Except PyErr (Option DetailedReport) :=
  match st.detailed_report with
  | none => Except.error (PyErr.runtimeError "finalize_report() must be called first")
  | some v => Except.ok v

/-- The compact per-scenario structure of `compact_breakdown`
(lines 258-273); with structured reports the `try` branch always applies. -/
structure CompactReport where
  resiliency_score : Int
  passed_slos : Int
  total_slos : Int
deriving DecidableEq

/-- `Resiliency.compact_breakdown` on one scenario report. -/
def compact_breakdown (r : ScenarioReport) : CompactReport :=
  { resiliency_score := r.score, passed_slos := r.breakdown.passed,
    total_slos := r.breakdown.passed + r.breakdown.failed }

/-- The `score_map` dict comprehension of `attach_compact_to_telemetry`
(lines 277-279); on duplicate report names the Python dict keeps the last
entry, hence `getLast?` over the matching reports. -/
def score_map (reps : List ScenarioReport) (n : String) : Option CompactReport :=
  match (reps.filter (fun r => r.name == n)).getLast? with
  | some r => some (compact_breakdown r)
  | none => none

/-- One entry of `chaos_telemetry.scenarios`: either a Python dict (whose
`scenario` key, when present and a string, is `scenario`, whose possible
`resiliency_report` key is `resiliency`, and whose remaining content is the
opaque `payload`) or a non-dict object (dataclass) with a possible
`scenario` attribute and the same opaque remaining content. -/
inductive TelEntry (α : Type) where
  | dict (scenario : Option String) (payload : α) (resiliency : Option CompactReport)
  | obj (scenario : Option String) (payload : α)
deriving DecidableEq

/-- One iteration of the loop of `attach_compact_to_telemetry`
(lines 281-299): a dict entry gains `resiliency_report` when its name is in
`score_map` and is appended as-is otherwise; a non-dict entry is always
converted to its dict form (`dataclasses.asdict` or the `dir`-probing
fallback, both keeping the same fields) and gains `resiliency_report` only
when matched. -/
def attach_step (reps : List ScenarioReport) {α : Type} : TelEntry α → TelEntry α
  | TelEntry.dict s p r =>
      match s.bind (score_map reps) with
      | some c => TelEntry.dict s p (some c)
      | none => TelEntry.dict s p r
  | TelEntry.obj s p => TelEntry.dict s p (s.bind (score_map reps))

/-- `attach_compact_to_telemetry` (lines 275-300): builds `new_scenarios` by
appending the processed form of each entry in order and replaces the
telemetry's scenario list with it. -/
def attach_compact_to_telemetry (reps : List ScenarioReport) {α : Type} :
    List (TelEntry α) → List (TelEntry α)
  | [] => []
  | item :: rest => attach_step reps item :: attach_compact_to_telemetry reps rest

/-- One entry of `chaos_telemetry.health_checks` as probed by
`compute_resiliency` (lines 357-372): a non-dict object with optional `url`
and `status` attributes, or a dict with optional `url` and `status` keys. -/
inductive HealthCheck where
  | obj (url : Option String) (status : Option Bool)
  | dict (url : Option String) (status : Option Bool)
deriving DecidableEq

/-- Name extraction for one health check (lines 359-364):
`getattr(hc, "url", None)`; when that is `None` and the entry is a dict,
`hc.get("url", f"hc_idx")`; a non-dict entry without a url keeps `None`,
which `str()` renders as `"None"`. -/
def hc_name (idx : Nat) : HealthCheck → String
  | HealthCheck.obj (some u) _ => u
  | HealthCheck.obj none _ => "None"
  | HealthCheck.dict (some u) _ => u
  | HealthCheck.dict none _ => "hc_" ++ toString idx

/-- Status extraction for one health check (lines 366-371):
`getattr(hc, "status", None)`, then for a dict `hc.get("status", True)`;
`bool(None)` on a statusless non-dict entry is `False`. -/
def hc_status : HealthCheck → Bool
  | HealthCheck.obj _ (some b) => b
  | HealthCheck.obj _ none => false
  | HealthCheck.dict _ (some b) => b
  | HealthCheck.dict _ none => true

/-- The `health_results` dict built by `compute_resiliency` (lines
354-372); `none` models a telemetry object with no `health_checks`
attribute (the falsy-check skips the loop either way). -/
def extract_health_results : Option (List HealthCheck) → List (String × Bool)
  | none => []
  | some l => l.enum.map (fun p => (hc_name p.1 p.2, hc_status p.2))

/-- The dict returned by `Resiliency.to_dict` (lines 120-129). -/
structure ResiliencyReport where
  score : Int
  breakdown : ScoreBreakdown
  slo_results : List (String × Bool)
  health_check_results : List (String × Bool)
deriving DecidableEq

/-- The body of the `try` block of `compute_resiliency` (lines 346-403):
construct the `Resiliency` object (the one step that can raise here —
`construct` stands for `Resiliency(alerts_yaml_path)`, which raises
`FileNotFoundError` or `ValueError` on a bad definitions source), evaluate
the SLOs, extract the health-check verdicts, score, and return the
`to_dict` report. -/
def compute_resiliency_body (construct : Except PyErr ResiliencyState)
    (query : String → QueryOutcome)
    (health_checks : Option (List HealthCheck)) :
    Except PyErr ResiliencyReport :=
  match construct with
  | Except.error e => Except.error e
  | Except.ok st =>
      let results := evaluate_slos query st.slos
      let health_results := extract_health_results health_checks
      let sb := calculate_resiliency_score (slo_defs_map st.slos) results health_results none
      Except.ok { score := sb.1, breakdown := sb.2, slo_results := results,
                  health_check_results := health_results }

/-- `compute_resiliency` (resiliency.py lines 330-407): the whole body runs
inside `try ... except Exception`, so a raised internal error is logged and
`None` is returned instead of propagating. -/
def compute_resiliency (construct : Except PyErr ResiliencyState)
    (query : String → QueryOutcome)
    (health_checks : Option (List HealthCheck)) : Option ResiliencyReport :=
  match compute_resiliency_body construct query health_checks with
  | Except.ok r => some r
  | Except.error _ => none

/-- A concrete scenario report used to exercise `finalize_report`. -/
def sample_scenario_report : ScenarioReport :=
  { name := "scenario-1", window := ("t0", "t1"), score := 80, weight := 2,
    breakdown := { passed := 1, failed := 1 },
    slo_results := [("slo_0", true), ("slo_1", false)],
    health_check_results := [] }

/-- A `Resiliency` state holding one scenario report of weight 2. -/
def sample_finalize_state : ResiliencyState :=
  { initState [] with scenario_reports := [sample_scenario_report] }

/-- A scenario report whose declared weight is zero. -/
def zero_weight_report : ScenarioReport :=
  { name := "scenario-z", window := ("t0", "t1"), score := 50, weight := 0,
    breakdown := { passed := 0, failed := 0 }, slo_results := [],
    health_check_results := [] }

/-- A `Resiliency` state whose single scenario report has weight zero. -/
def zero_weight_state : ResiliencyState :=
  { initState [] with scenario_reports := [zero_weight_report] }

/-- Relation between one telemetry entry and its image under
`attach_compact_to_telemetry`: an unmatched dict entry is unchanged, a
matched dict entry changes only by gaining the compact report, and a
non-dict entry becomes its dict form with the compact report exactly when
matched. -/
def attach_rel (reps : List ScenarioReport) {α : Type} :
    TelEntry α → TelEntry α → Prop
  | TelEntry.dict s p r, new =>
      (s.bind (score_map reps) = none → new = TelEntry.dict s p r) ∧
      (∀ c, s.bind (score_map reps) = some c → new = TelEntry.dict s p (some c))
  | TelEntry.obj s p, new => new = TelEntry.dict s p (s.bind (score_map reps))

/-- Some series of the result is range-shaped and carries a sample that
parses strictly positive. -/
def has_positive_sample (result : List Series) : Bool :=
  result.any (fun s =>
    match s with
    | Series.range samples => samples.any sample_positive
    | _ => false)

/-- C1 counterexample: on the empty result the spec's Sample Verdict
Extractor yields `no_data`, but the code's `slo_passed` returns `False`,
the fail verdict — so the claim's "never fail" is false at the input `[]`. -/
theorem slo_passed_empty_cex :
    extract_spec [] = Verdict.noData ∧ slo_passed [] = false :=
  ⟨rfl, rfl⟩

/-- C1 (amended): for every SLO whose query succeeds with an empty result
(no series), `slo_passed` yields fail (`False`) — never pass — and the
batch evaluator records `False` for that SLO's name. -/
theorem empty_result_yields_fail (query : String → QueryOutcome)
    (slo_list : List SLODef) (slo : SLODef)
    (hm : slo ∈ slo_list) (hq : query slo.expr = QueryOutcome.ok []) :
    slo_passed [] = false ∧ (slo.name, false) ∈ evaluate_slos query slo_list := by
  refine ⟨rfl, ?_⟩
  have h1 : (slo.name, slo_verdict query slo) ∈ evaluate_slos query slo_list :=
    List.mem_map_of_mem _ hm
  have h2 : slo_verdict query slo = false := by
    simp [slo_verdict, hq, slo_passed]
  rwa [h2] at h1

/-- C1 witness: concrete run of the amended claim on one SLO whose query
returns the empty result. -/
theorem empty_result_yields_fail_witness :
    slo_passed [] = false ∧
      ("slo_0", false) ∈
        evaluate_slos (fun _ => QueryOutcome.ok []) [⟨"slo_0", "vector(0)", "critical"⟩] :=
  empty_result_yields_fail (fun _ => QueryOutcome.ok [])
    [⟨"slo_0", "vector(0)", "critical"⟩] ⟨"slo_0", "vector(0)", "critical"⟩
    (by decide) rfl

/-- C2 counterexample: an SLO whose query succeeds with an empty result
(the spec's `no_data` condition) is not omitted from the batch output —
its name is present, mapped to `False`. -/
theorem evaluate_slos_nodata_key_cex :
    evaluate_slos (fun _ => QueryOutcome.ok []) [⟨"slo_0", "vector(0)", "critical"⟩] =
      [("slo_0", false)] := rfl

/-- C2 (amended): the batch evaluator's output carries exactly one boolean
entry per declared SLO, in order — every SLO gets a key, including ones
whose query returned no data and ones whose query failed; none is omitted. -/
theorem evaluate_slos_all_keys (query : String → QueryOutcome)
    (slo_list : List SLODef) :
    (evaluate_slos query slo_list).map Prod.fst = slo_list.map SLODef.name := by
  simp [evaluate_slos, List.map_map, Function.comp]

/-- C4: for a non-empty all-range result, the verdict is fail exactly when
some sample value parses strictly positive; when every sample is ≤ 0 or
unparsable the verdict is pass.  `has_positive_sample` is an existence
test, so the characterisation is independent of sample order. -/
theorem slo_passed_range_iff (result : List Series)
    (hne : result ≠ [])
    (hr : ∀ s ∈ result, ∃ samples, s = Series.range samples) :
    slo_passed result = !(has_positive_sample result) := by
  have main : ∀ l : List Series,
      (∀ s ∈ l, ∃ samples, s = Series.range samples) →
      seriesScan l = !(has_positive_sample l) := by
    intro l
    induction l with
    | nil => intro _; rfl
    | cons hd tl ih =>
      intro hall
      obtain ⟨samples, rfl⟩ := hall hd (List.mem_cons_self hd tl)
      by_cases hpos : samples.any sample_positive
      · simp [seriesScan, has_positive_sample, hpos]
      · have htl := ih (fun s hs => hall s (List.mem_cons_of_mem _ hs))
        simp [seriesScan, has_positive_sample, hpos, htl]
  cases result with
  | nil => exact absurd rfl hne
  | cons h t =>
    have := main (h :: t) hr
    simpa [slo_passed] using this

/-- C4 witness: a concrete two-series range result with one positive
sample. -/
theorem slo_passed_range_iff_witness :
    slo_passed [Series.range [((0 : ℚ), some (0 : ℚ)), (1, none)], Series.range [(2, some 3)]] =
      !(has_positive_sample
        [Series.range [((0 : ℚ), some (0 : ℚ)), (1, none)], Series.range [(2, some 3)]]) :=
  slo_passed_range_iff _ (by simp)
    (by
      intro s hs
      simp only [List.mem_cons, List.not_mem_nil, or_false] at hs
      rcases hs with h | h
      · exact ⟨_, h⟩
      · exact ⟨_, h⟩)

/-- C5: a result whose first series is instant-shaped is decided entirely by
that value: the verdict is pass exactly when the value parses to 0; an
unparsable value (`none`) therefore yields fail. -/
theorem slo_passed_instant_iff (ts : ℚ) (v : Option ℚ) (rest : List Series) :
    slo_passed (Series.instant ts v :: rest) = true ↔ v = some 0 := by
  simp [slo_passed, seriesScan]

/-- C6: an SLO whose backend query raises is recorded as `False` under its
name, and the batch output still has one entry per declared SLO — one
failed query never aborts the batch. -/
theorem evaluate_slos_query_error (query : String → QueryOutcome)
    (slo_list : List SLODef) (slo : SLODef)
    (hm : slo ∈ slo_list) (he : query slo.expr = QueryOutcome.error) :
    (slo.name, false) ∈ evaluate_slos query slo_list ∧
      (evaluate_slos query slo_list).length = slo_list.length := by
  constructor
  · have h1 : (slo.name, slo_verdict query slo) ∈ evaluate_slos query slo_list :=
      List.mem_map_of_mem _ hm
    have h2 : slo_verdict query slo = false := by
      simp [slo_verdict, he]
    rwa [h2] at h1
  · simp [evaluate_slos]

/-- C6 witness: a two-SLO batch where the first query raises; the failed
SLO is scored `False` and both SLOs are still present. -/
theorem evaluate_slos_query_error_witness :
    ("a", false) ∈
        evaluate_slos (fun _ => QueryOutcome.error)
          [⟨"a", "up == 0", "critical"⟩, ⟨"b", "rate_x", "warning"⟩] ∧
      (evaluate_slos (fun _ => QueryOutcome.error)
          [⟨"a", "up == 0", "critical"⟩, ⟨"b", "rate_x", "warning"⟩]).length =
        ([⟨"a", "up == 0", "critical"⟩, ⟨"b", "rate_x", "warning"⟩] : List SLODef).length :=
  evaluate_slos_query_error (fun _ => QueryOutcome.error)
    [⟨"a", "up == 0", "critical"⟩, ⟨"b", "rate_x", "warning"⟩]
    ⟨"a", "up == 0", "critical"⟩ (by decide) rfl

/-- C3: on a freshly constructed `Resiliency` object — before any
`finalize_report` call — `get_summary` and `get_detailed_report` do not
raise: `__init__` sets `self.summary = None` and
`self.detailed_report = None`, so the `hasattr` guards always hold and both
accessors return Python's `None` instead of the claimed `RuntimeError`. -/
theorem get_reports_after_init_return_none (slos : List SLODef) :
    get_summary (initState slos) = Except.ok none ∧
      get_detailed_report (initState slos) = Except.ok none :=
  ⟨rfl, rfl⟩

/-- C7: with at least one scenario report and nonzero total weight,
`finalize_report` succeeds and sets the summary's `resiliency_score` to the
weighted mean of the scenario scores — sum of score times weight over sum
of weights — truncated toward zero by Python's `int()`. -/
theorem finalize_weighted_mean (query : String → QueryOutcome)
    (total_start total_end : String) (weights : Option (List (String × Int)))
    (st : ResiliencyState)
    (hne : st.scenario_reports ≠ [])
    (hw : total_weight st.scenario_reports ≠ 0) :
    ∃ st', finalize_report query total_start total_end weights st = Except.ok st' ∧
      ∃ s, st'.summary = some (some s) ∧
        s.resiliency_score =
          py_int (weighted_score_sum st.scenario_reports /
            total_weight st.scenario_reports) := by
  simp only [finalize_report, if_neg hne, if_neg hw]
  exact ⟨_, rfl, _, rfl, rfl⟩

/-- C7 witness: one scenario report of score 80 and weight 2. -/
theorem finalize_weighted_mean_witness :
    ∃ st', finalize_report (fun _ => QueryOutcome.error) "t0" "t1" none
        sample_finalize_state = Except.ok st' ∧
      ∃ s, st'.summary = some (some s) ∧
        s.resiliency_score =
          py_int (weighted_score_sum sample_finalize_state.scenario_reports /
            total_weight sample_finalize_state.scenario_reports) :=
  finalize_weighted_mean (fun _ => QueryOutcome.error) "t0" "t1" none
    sample_finalize_state (by decide)
    (by norm_num [total_weight, sample_finalize_state, sample_scenario_report, initState])

/-- C8: `compute_resiliency` never lets an internal failure escape: when
its body raises it returns `None` (absent result), and when the body
succeeds it returns the report — the `except Exception` boundary absorbs
every raised error. -/
theorem compute_resiliency_no_raise (construct : Except PyErr ResiliencyState)
    (query : String → QueryOutcome)
    (health_checks : Option (List HealthCheck)) :
    (∀ e, compute_resiliency_body construct query health_checks = Except.error e →
        compute_resiliency construct query health_checks = none) ∧
    (∀ r, compute_resiliency_body construct query health_checks = Except.ok r →
        compute_resiliency construct query health_checks = some r) := by
  constructor
  · intro e he
    simp [compute_resiliency, he]
  · intro r hr
    simp [compute_resiliency, hr]

/-- C8 witness: a failing `Resiliency` construction (missing alerts file)
is absorbed and `None` is returned. -/
theorem compute_resiliency_no_raise_witness :
    compute_resiliency (Except.error (PyErr.fileNotFoundError "alerts file not found"))
      (fun _ => QueryOutcome.error) none = none :=
  (compute_resiliency_no_raise
      (Except.error (PyErr.fileNotFoundError "alerts file not found"))
      (fun _ => QueryOutcome.error) none).1
    (PyErr.fileNotFoundError "alerts file not found") rfl

/-- C9 counterexample: a non-dict telemetry entry whose name matches no
scenario report is not left unchanged — the loop replaces it by its dict
conversion. -/
theorem attach_obj_entry_changed_cex :
    attach_compact_to_telemetry ([] : List ScenarioReport)
        [TelEntry.obj (some "etcd-disruption") (0 : Nat)] ≠
      [TelEntry.obj (some "etcd-disruption") (0 : Nat)] := by
  decide

/-- C9 (amended): `attach_compact_to_telemetry` retains every telemetry
entry in order; a dict entry with no matching scenario report passes
through unchanged; a dict entry with a matching name changes only by
gaining the compact `resiliency_report`; a non-dict entry is converted to
its dict form, gaining the compact report exactly when its name matches. -/
theorem attach_compact_frame {α : Type} (reps : List ScenarioReport)
    (scens : List (TelEntry α)) :
    List.Forall₂ (attach_rel reps) scens (attach_compact_to_telemetry reps scens) := by
  induction scens with
  | nil => exact List.Forall₂.nil
  | cons hd tl ih =>
    refine List.Forall₂.cons ?_ ih
    cases hd with
    | dict s p r =>
      refine ⟨fun h => ?_, fun c h => ?_⟩
      · simp [attach_step, h]
      · simp [attach_step, h]
    | obj s p => rfl

/-- C10: with at least one scenario report but declared weights summing to
zero, `finalize_report` stops with `ZeroDivisionError` — the weighted-mean
division is unguarded — and no summary or detailed report is produced. -/
theorem finalize_zero_weight_raises (query : String → QueryOutcome)
    (total_start total_end : String) (weights : Option (List (String × Int)))
    (st : ResiliencyState)
    (hne : st.scenario_reports ≠ [])
    (hw : total_weight st.scenario_reports = 0) :
    finalize_report query total_start total_end weights st =
      Except.error PyErr.zeroDivisionError := by
  simp only [finalize_report, if_neg hne, if_pos hw]

/-- C10 witness: one scenario report of weight zero. -/
theorem finalize_zero_weight_raises_witness :
    finalize_report (fun _ => QueryOutcome.error) "t0" "t1" none zero_weight_state =
      Except.error PyErr.zeroDivisionError :=
  finalize_zero_weight_raises (fun _ => QueryOutcome.error) "t0" "t1" none
    zero_weight_state (by decide)
    (by norm_num [total_weight, zero_weight_state, zero_weight_report, initState])
